import Mathlib

/-!
Verification of the QR decoding cascade of `lum_rust_backend`.

Shallow embedding of the Python sources:
  * `app_fun_qrdetection_FIXED.py` — the cascade `imagen_a_url`, the module-level
    `_detection_metrics` dictionary, `get_detection_metrics`, `reset_detection_metrics`,
    and the lazy singleton getters `get_qreader_small` / `get_qreader_medium` /
    `get_qreader_large`.
  * `qr_fallback_small_medium.py` — the confidence-gated hybrid handler
    (`detect_with_confidence`, `QRHybridHandler.do_POST`) and the unguarded lazy
    model loading (`get_small_reader`).
  * `api_main_CORRECTIONS.py` — the health endpoint `qr_health_check`.

External decoder libraries (cv2, pyzbar, QReader/torch) are opaque to this
repository; a call into one of them is modelled by an oracle outcome: it either
returns a truthy payload, returns a falsy/no-match result, or raises an
exception that the surrounding `try`/`except` catches.  Mutable module-level
state (the metrics dictionary, the singleton model handles) is passed
explicitly.  Latencies measured with `time.time()` are an input of the model
(field `latencyMs`); Python float arithmetic on them is modelled over `ℚ`.
-/

/-- The preprocessing strategies produced by `leer_limpiar_imagen` and iterated
by the cascade, in the order of the `strategies` list of `imagen_a_url`
(lines 168-172 of `app_fun_qrdetection_FIXED.py`). -/
inductive Strategy where
  | equalized
  | raw
  | binary
deriving DecidableEq, Repr, Fintype

/-- `strategy_name.upper()` as used to build decoder labels. -/
def Strategy.upperName : Strategy → String
  | .equalized => "EQUALIZED"
  | .raw => "RAW"
  | .binary => "BINARY"

/-- The `strategies` list of `imagen_a_url`: equalized, then raw, then binary. -/
def strategies : List Strategy := [.equalized, .raw, .binary]

/-- Outcome of one call into an external decoder on one image variant:
`ok p` — the call returned a truthy decoded payload `p` (a non-empty string /
non-empty QR list); `miss` — the call returned normally but with a falsy
result; `exc` — the call raised an exception (caught by the enclosing
`try`/`except` block of the cascade). -/
inductive Outcome where
  | ok (payload : String)
  | miss
  | exc
deriving DecidableEq, Repr

/-- Whether the outcome is a successful decode. -/
def Outcome.isOk : Outcome → Bool
  | .ok _ => true
  | _ => false

/-- The decoding techniques attempted by `imagen_a_url`.  There is no
constructor for the large QReader model: METHOD 6 is commented out in the
source (lines 278-297). -/
inductive DecoderId where
  | cv2
  | cv2curved
  | pyzbar
  | qsmall
  | qmedium
deriving DecidableEq, Repr, Fintype

/-- The `decoderLabel` returned on success: decoder name plus
`strategy_name.upper()`, exactly as the f-strings of `imagen_a_url` build it. -/
def decoderLabel : DecoderId → Strategy → String
  | .cv2, s => "CV2_" ++ s.upperName
  | .cv2curved, s => "CV2_CURVED_" ++ s.upperName
  | .pyzbar, s => "PYZBAR_" ++ s.upperName
  | .qsmall, s => "QREADER_S_" ++ s.upperName
  | .qmedium, s => "QREADER_M_" ++ s.upperName

/-- Environment of one `imagen_a_url` call: the behaviour of everything outside
this repository on the given image bytes.  `preprocess = none` models
`leer_limpiar_imagen` raising (`cv2.imdecode` returned `None`, or any other
exception during preprocessing); otherwise each decoder field gives the outcome
of that decoder on each variant.  `smallInitOk` / `mediumInitOk` model whether
`get_qreader_small()` / `get_qreader_medium()` return normally (construction of
a `QReader` can raise).  `latencyMs` is the elapsed time measured at the return
point of the call. -/
structure DecodeEnv where
  preprocess : Option Unit
  cv2Det : Strategy → Outcome
  cv2Curved : Strategy → Outcome
  pyzbar : Strategy → Outcome
  smallInitOk : Bool
  smallDet : Strategy → Outcome
  mediumInitOk : Bool
  mediumDet : Strategy → Outcome
  latencyMs : ℚ

/-- The outcome of one (decoder, variant) pairing in the environment. -/
def runAttempt (env : DecodeEnv) : DecoderId × Strategy → Outcome
  | (.cv2, s) => env.cv2Det s
  | (.cv2curved, s) => env.cv2Curved s
  | (.pyzbar, s) => env.pyzbar s
  | (.qsmall, s) => env.smallDet s
  | (.qmedium, s) => env.mediumDet s

/-- The module-level `_detection_metrics` dictionary. -/
structure Metrics where
  total_requests : Nat
  cv2_success : Nat
  cv2_curved_success : Nat
  pyzbar_success : Nat
  qreader_small_success : Nat
  qreader_medium_success : Nat
  qreader_large_success : Nat
  total_failures : Nat
  avg_latency_ms : ℚ
deriving DecidableEq, Repr

/-- The initial value of `_detection_metrics` (module load). -/
def detectionMetricsInit : Metrics :=
  { total_requests := 0, cv2_success := 0, cv2_curved_success := 0,
    pyzbar_success := 0, qreader_small_success := 0, qreader_medium_success := 0,
    qreader_large_success := 0, total_failures := 0, avg_latency_ms := 0 }

/-- `reset_detection_metrics()` reassigns `_detection_metrics` to the all-zero
dictionary (lines 350-363). -/
def reset_detection_metrics : Metrics := detectionMetricsInit

/-- The running-average update performed at every return point of
`imagen_a_url`:
`avg = (avg * (total_requests - 1) + latency) / total_requests`,
with `total_requests` already incremented at function entry. -/
def updateAvg (m : Metrics) (latency : ℚ) : Metrics :=
  { m with avg_latency_ms :=
      (m.avg_latency_ms * ((m.total_requests : ℚ) - 1) + latency) / (m.total_requests : ℚ) }

/-- Increment of the per-decoder success counter done in the corresponding
success branch of `imagen_a_url`. -/
def bumpCounter (m : Metrics) : DecoderId → Metrics
  | .cv2 => { m with cv2_success := m.cv2_success + 1 }
  | .cv2curved => { m with cv2_curved_success := m.cv2_curved_success + 1 }
  | .pyzbar => { m with pyzbar_success := m.pyzbar_success + 1 }
  | .qsmall => { m with qreader_small_success := m.qreader_small_success + 1 }
  | .qmedium => { m with qreader_medium_success := m.qreader_medium_success + 1 }

/-- The inner body of the deterministic loop for one strategy: try the
geometric cv2 detector, then the curved cv2 detector, then pyzbar.  Each of the
three calls sits in its own `try`/`except`, so an exception is handled exactly
like a no-match and the next method is tried (lines 179-231). -/
def detStep (env : DecodeEnv) (s : Strategy) : Option (String × DecoderId) :=
  match env.cv2Det s with
  | .ok p => some (p, .cv2)
  | _ =>
    match env.cv2Curved s with
    | .ok p => some (p, .cv2curved)
    | _ =>
      match env.pyzbar s with
      | .ok p => some (p, .pyzbar)
      | _ => none

/-- The deterministic phase: `for strategy_name, processed_image in strategies`
running `detStep` on each strategy, returning at the first success. -/
def firstDetAux (env : DecodeEnv) : List Strategy → Option (String × DecoderId × Strategy)
  | [] => none
  | s :: rest =>
    match detStep env s with
    | some (p, d) => some (p, d, s)
    | none => firstDetAux env rest

/-- Deterministic phase over the full strategy list. -/
def firstDet (env : DecodeEnv) : Option (String × DecoderId × Strategy) :=
  firstDetAux env strategies

/-- The variant loop inside ONE learned-decoder `try` block (METHOD 4 and
METHOD 5).  The `try` encloses the whole loop, so an exception raised while
decoding one variant is caught at the decoder level and the remaining variants
of THAT decoder are skipped (the cascade then moves to the next decoder). -/
def learnedScan (det : Strategy → Outcome) : List Strategy → Option (String × Strategy)
  | [] => none
  | s :: rest =>
    match det s with
    | .ok p => some (p, s)
    | .miss => learnedScan det rest
    | .exc => none

/-- One learned-decoder tier: obtaining the singleton (which can itself raise,
modelled by `initOk = false`, also caught by the decoder-level `except`), then
scanning the variants. -/
def learnedPhase (initOk : Bool) (det : Strategy → Outcome) : Option (String × Strategy) :=
  if initOk then learnedScan det strategies else none

/-- Shallow embedding of `imagen_a_url(image_data)` (lines 146-316).  The
module-level metrics are threaded explicitly; the result is the returned pair
`(payload, decoderLabel)` together with the metrics after the call. -/
def imagen_a_url (env : DecodeEnv) (m0 : Metrics) : (Option String × String) × Metrics :=
  let m := { m0 with total_requests := m0.total_requests + 1 }
  match env.preprocess with
  | none =>
      ((none, "ERROR"),
        updateAvg { m with total_failures := m.total_failures + 1 } env.latencyMs)
  | some _ =>
      match firstDet env with
      | some (p, d, s) =>
          ((some p, decoderLabel d s), updateAvg (bumpCounter m d) env.latencyMs)
      | none =>
          match learnedPhase env.smallInitOk env.smallDet with
          | some (p, s) =>
              ((some p, decoderLabel .qsmall s),
                updateAvg (bumpCounter m .qsmall) env.latencyMs)
          | none =>
              match learnedPhase env.mediumInitOk env.mediumDet with
              | some (p, s) =>
                  ((some p, decoderLabel .qmedium s),
                    updateAvg (bumpCounter m .qmedium) env.latencyMs)
              | none =>
                  ((none, "FAILED_ALL_METHODS"),
                    updateAvg { m with total_failures := m.total_failures + 1 } env.latencyMs)

/-- Running a sequence of `imagen_a_url` calls, threading the metrics. -/
def runCalls (envs : List DecodeEnv) (m : Metrics) : Metrics :=
  envs.foldl (fun acc e => (imagen_a_url e acc).2) m

example :
    (imagen_a_url
      { preprocess := none, cv2Det := fun _ => .miss, cv2Curved := fun _ => .miss,
        pyzbar := fun _ => .miss, smallInitOk := true, smallDet := fun _ => .miss,
        mediumInitOk := true, mediumDet := fun _ => .miss, latencyMs := 0 }
      detectionMetricsInit).1 = (none, "ERROR") := by decide

example :
    (imagen_a_url
      { preprocess := some (), cv2Det := fun _ => .miss, cv2Curved := fun _ => .miss,
        pyzbar := fun s => match s with | .raw => .ok "HELLO" | _ => .miss,
        smallInitOk := true, smallDet := fun _ => .miss,
        mediumInitOk := true, mediumDet := fun _ => .miss, latencyMs := 0 }
      detectionMetricsInit).1 = (some "HELLO", "PYZBAR_RAW") := by decide

/-- The deterministic (variant, decoder) pairings in the order the cascade
tries them: for each variant (equalized, raw, binary) the geometric cv2
detector, the curved cv2 detector, then pyzbar. -/
def detPairs : List (DecoderId × Strategy) :=
  [(.cv2, .equalized), (.cv2curved, .equalized), (.pyzbar, .equalized),
   (.cv2, .raw), (.cv2curved, .raw), (.pyzbar, .raw),
   (.cv2, .binary), (.cv2curved, .binary), (.pyzbar, .binary)]

/-- The small-model pairings, over all variants in the same order. -/
def smallPairs : List (DecoderId × Strategy) :=
  [(.qsmall, .equalized), (.qsmall, .raw), (.qsmall, .binary)]

/-- The medium-model pairings, over all variants in the same order. -/
def mediumPairs : List (DecoderId × Strategy) :=
  [(.qmedium, .equalized), (.qmedium, .raw), (.qmedium, .binary)]

/-- The full attempt order of the default cascade; the large model appears
nowhere in it. -/
def attemptOrder : List (DecoderId × Strategy) := detPairs ++ smallPairs ++ mediumPairs

/-- First successful attempt along a list of pairings. -/
def firstOk (env : DecodeEnv) : List (DecoderId × Strategy) → Option (String × DecoderId × Strategy)
  | [] => none
  | ds :: rest =>
    match runAttempt env ds with
    | .ok p => some (p, ds.1, ds.2)
    | _ => firstOk env rest

/-- An environment in which no external call raises: preprocessing succeeds,
both singleton getters return normally, and every decoder attempt returns
either a payload or a no-match. -/
def NoExc (env : DecodeEnv) : Prop :=
  env.preprocess.isSome = true ∧ env.smallInitOk = true ∧ env.mediumInitOk = true ∧
    ∀ ds : DecoderId × Strategy, runAttempt env ds ≠ Outcome.exc

lemma firstOk_append (env : DecodeEnv) (l₁ l₂ : List (DecoderId × Strategy)) :
    firstOk env (l₁ ++ l₂) =
      match firstOk env l₁ with
      | some r => some r
      | none => firstOk env l₂ := by
  induction l₁ with
  | nil => simp [firstOk]
  | cons ds rest ih =>
    cases h : runAttempt env ds with
    | ok p => simp [firstOk, h]
    | miss => simp [firstOk, h, ih]
    | exc => simp [firstOk, h, ih]

lemma firstOk_detStep (env : DecodeEnv) (s : Strategy) :
    firstOk env [(.cv2, s), (.cv2curved, s), (.pyzbar, s)] =
      (detStep env s).map (fun pd => (pd.1, pd.2, s)) := by
  cases h1 : env.cv2Det s <;> cases h2 : env.cv2Curved s <;> cases h3 : env.pyzbar s <;>
    simp [firstOk, detStep, runAttempt, h1, h2, h3]

lemma firstOk_detPairs (env : DecodeEnv) :
    firstOk env detPairs = firstDet env := by
  have hsplit : detPairs =
      [((.cv2 : DecoderId), (.equalized : Strategy)), (.cv2curved, .equalized), (.pyzbar, .equalized)] ++
      ([((.cv2 : DecoderId), (.raw : Strategy)), (.cv2curved, .raw), (.pyzbar, .raw)] ++
       [((.cv2 : DecoderId), (.binary : Strategy)), (.cv2curved, .binary), (.pyzbar, .binary)]) := rfl
  rw [hsplit, firstOk_append, firstOk_append,
      firstOk_detStep env .equalized, firstOk_detStep env .raw, firstOk_detStep env .binary]
  show _ = firstDetAux env strategies
  cases hd1 : detStep env .equalized with
  | some pd1 => simp [strategies, firstDetAux, hd1]
  | none =>
    cases hd2 : detStep env .raw with
    | some pd2 => simp [strategies, firstDetAux, hd1, hd2]
    | none =>
      cases hd3 : detStep env .binary with
      | some pd3 => simp [strategies, firstDetAux, hd1, hd2, hd3]
      | none => simp [strategies, firstDetAux, hd1, hd2, hd3]

lemma firstOk_smallPairs (env : DecodeEnv)
    (h : ∀ ds : DecoderId × Strategy, runAttempt env ds ≠ Outcome.exc) :
    firstOk env smallPairs =
      (learnedScan env.smallDet strategies).map (fun ps => (ps.1, .qsmall, ps.2)) := by
  have he : env.smallDet .equalized ≠ Outcome.exc := h (.qsmall, .equalized)
  have hr : env.smallDet .raw ≠ Outcome.exc := h (.qsmall, .raw)
  have hb : env.smallDet .binary ≠ Outcome.exc := h (.qsmall, .binary)
  cases h1 : env.smallDet .equalized with
  | exc => exact absurd h1 he
  | ok p => simp [smallPairs, firstOk, runAttempt, learnedScan, strategies, h1]
  | miss =>
    cases h2 : env.smallDet .raw with
    | exc => exact absurd h2 hr
    | ok p => simp [smallPairs, firstOk, runAttempt, learnedScan, strategies, h1, h2]
    | miss =>
      cases h3 : env.smallDet .binary with
      | exc => exact absurd h3 hb
      | ok p => simp [smallPairs, firstOk, runAttempt, learnedScan, strategies, h1, h2, h3]
      | miss => simp [smallPairs, firstOk, runAttempt, learnedScan, strategies, h1, h2, h3]

lemma firstOk_mediumPairs (env : DecodeEnv)
    (h : ∀ ds : DecoderId × Strategy, runAttempt env ds ≠ Outcome.exc) :
    firstOk env mediumPairs =
      (learnedScan env.mediumDet strategies).map (fun ps => (ps.1, .qmedium, ps.2)) := by
  have he : env.mediumDet .equalized ≠ Outcome.exc := h (.qmedium, .equalized)
  have hr : env.mediumDet .raw ≠ Outcome.exc := h (.qmedium, .raw)
  have hb : env.mediumDet .binary ≠ Outcome.exc := h (.qmedium, .binary)
  cases h1 : env.mediumDet .equalized with
  | exc => exact absurd h1 he
  | ok p => simp [mediumPairs, firstOk, runAttempt, learnedScan, strategies, h1]
  | miss =>
    cases h2 : env.mediumDet .raw with
    | exc => exact absurd h2 hr
    | ok p => simp [mediumPairs, firstOk, runAttempt, learnedScan, strategies, h1, h2]
    | miss =>
      cases h3 : env.mediumDet .binary with
      | exc => exact absurd h3 hb
      | ok p => simp [mediumPairs, firstOk, runAttempt, learnedScan, strategies, h1, h2, h3]
      | miss => simp [mediumPairs, firstOk, runAttempt, learnedScan, strategies, h1, h2, h3]

/-- In every branch, `imagen_a_url` leaves the large-model success counter
untouched (METHOD 6 is commented out). -/
lemma imagen_a_url_large_unchanged (env : DecodeEnv) (m : Metrics) :
    (imagen_a_url env m).2.qreader_large_success = m.qreader_large_success := by
  unfold imagen_a_url
  cases env.preprocess with
  | none => simp [updateAvg]
  | some u =>
    cases hfd : firstDet env with
    | some r =>
      obtain ⟨p, d, s⟩ := r
      cases d <;> simp [hfd, updateAvg, bumpCounter]
    | none =>
      cases hs : learnedPhase env.smallInitOk env.smallDet with
      | some r => simp [hfd, hs, updateAvg, bumpCounter]
      | none =>
        cases hm : learnedPhase env.mediumInitOk env.mediumDet with
        | some r => simp [hfd, hs, hm, updateAvg, bumpCounter]
        | none => simp [hfd, hs, hm, updateAvg]

/-- Claim C1: for every input image, the default cascade tries, in order, the
geometric cv2 detector, the curved cv2 detector and pyzbar on each variant
(equalized, raw, binary), then the small model on all variants, then the medium
model on all variants; the large model is never attempted; and it returns at
the first successful attempt with the decoder label composed of that decoder's
name and that variant's name.  Stated for runs in which no external call raises
(exception behaviour is the subject of C2 and C5). -/
theorem c1_cascade_order (env : DecodeEnv) (m : Metrics) (h : NoExc env) :
    (imagen_a_url env m).1 =
      (match firstOk env attemptOrder with
        | some (p, d, s) => (some p, decoderLabel d s)
        | none => (none, "FAILED_ALL_METHODS"))
    ∧ (imagen_a_url env m).2.qreader_large_success = m.qreader_large_success := by
  obtain ⟨hp, hsi, hmi, hne⟩ := h
  refine ⟨?_, imagen_a_url_large_unchanged env m⟩
  obtain ⟨u, hu⟩ := Option.isSome_iff_exists.mp hp
  have horder : firstOk env attemptOrder =
      match firstDet env with
      | some r => some r
      | none =>
        match (learnedScan env.smallDet strategies).map
            (fun ps => (ps.1, DecoderId.qsmall, ps.2)) with
        | some r => some r
        | none => (learnedScan env.mediumDet strategies).map
            (fun ps => (ps.1, DecoderId.qmedium, ps.2)) := by
    simp only [attemptOrder, firstOk_append, firstOk_detPairs,
      firstOk_smallPairs env hne, firstOk_mediumPairs env hne]
    cases firstDet env <;> simp
  rw [horder]
  unfold imagen_a_url
  rw [hu]
  simp only [learnedPhase, hsi, hmi, if_true]
  cases hfd : firstDet env with
  | some r =>
    obtain ⟨p, d, s⟩ := r
    simp
  | none =>
    cases hs : learnedScan env.smallDet strategies with
    | some r =>
      obtain ⟨p, s⟩ := r
      simp
    | none =>
      cases hm2 : learnedScan env.mediumDet strategies with
      | some r =>
        obtain ⟨p, s⟩ := r
        simp
      | none => simp

/-- Exception-free environment on which only the small model (on the raw
variant) succeeds. -/
def envC1 : DecodeEnv :=
  { preprocess := some (), cv2Det := fun _ => .miss, cv2Curved := fun _ => .miss,
    pyzbar := fun _ => .miss, smallInitOk := true,
    smallDet := fun s => match s with | .raw => .ok "W1" | _ => .miss,
    mediumInitOk := true, mediumDet := fun _ => .miss, latencyMs := 0 }

/-- Witness for C1: on `envC1` the cascade returns the small model's payload
with the label naming the small model and the raw variant. -/
theorem c1_cascade_order_witness :
    (imagen_a_url envC1 detectionMetricsInit).1 = (some "W1", "QREADER_S_RAW") :=
  (c1_cascade_order envC1 detectionMetricsInit ⟨rfl, rfl, rfl, by decide⟩).1.trans (by decide)

/-- `isOk = false` means the outcome was a miss or a caught exception. -/
lemma Outcome.isOk_false_iff (o : Outcome) :
    o.isOk = false ↔ o = .miss ∨ o = .exc := by
  cases o <;> simp [Outcome.isOk]

lemma detStep_eq_none (env : DecodeEnv) (s : Strategy)
    (h1 : (env.cv2Det s).isOk = false) (h2 : (env.cv2Curved s).isOk = false)
    (h3 : (env.pyzbar s).isOk = false) :
    detStep env s = none := by
  rcases (Outcome.isOk_false_iff _).mp h1 with h1 | h1 <;>
    rcases (Outcome.isOk_false_iff _).mp h2 with h2 | h2 <;>
      rcases (Outcome.isOk_false_iff _).mp h3 with h3 | h3 <;>
        simp [detStep, h1, h2, h3]

lemma firstDet_eq_none (env : DecodeEnv)
    (h : ∀ ds : DecoderId × Strategy, (runAttempt env ds).isOk = false) :
    firstDet env = none := by
  have d1 := detStep_eq_none env .equalized (h (.cv2, .equalized)) (h (.cv2curved, .equalized))
    (h (.pyzbar, .equalized))
  have d2 := detStep_eq_none env .raw (h (.cv2, .raw)) (h (.cv2curved, .raw)) (h (.pyzbar, .raw))
  have d3 := detStep_eq_none env .binary (h (.cv2, .binary)) (h (.cv2curved, .binary))
    (h (.pyzbar, .binary))
  simp [firstDet, firstDetAux, strategies, d1, d2, d3]

lemma learnedScan_eq_none (det : Strategy → Outcome)
    (h : ∀ s : Strategy, (det s).isOk = false) :
    learnedScan det strategies = none := by
  rcases (Outcome.isOk_false_iff _).mp (h .equalized) with h1 | h1 <;>
    rcases (Outcome.isOk_false_iff _).mp (h .raw) with h2 | h2 <;>
      rcases (Outcome.isOk_false_iff _).mp (h .binary) with h3 | h3 <;>
        simp [learnedScan, strategies, h1, h2, h3]

lemma learnedPhase_eq_none (b : Bool) (det : Strategy → Outcome)
    (h : ∀ s : Strategy, (det s).isOk = false) :
    learnedPhase b det = none := by
  cases b <;> simp [learnedPhase, learnedScan_eq_none det h]

/-- Claim C2: `imagen_a_url` never lets an exception escape.  If the bytes
cannot be decoded into a raster (or preprocessing raises), it returns
`(None, "ERROR")`; if every (variant, decoder) pairing produces no match, it
returns the distinct sentinel `(None, "FAILED_ALL_METHODS")`; and in every run
the result is one of these two sentinels or a payload with a decoder label. -/
theorem c2_error_sentinels (env : DecodeEnv) (m : Metrics) :
    (env.preprocess = none → (imagen_a_url env m).1 = (none, "ERROR"))
    ∧ (env.preprocess.isSome = true →
        (∀ ds : DecoderId × Strategy, (runAttempt env ds).isOk = false) →
        (imagen_a_url env m).1 = (none, "FAILED_ALL_METHODS"))
    ∧ ((imagen_a_url env m).1 = (none, "ERROR") ∨
        (imagen_a_url env m).1 = (none, "FAILED_ALL_METHODS") ∨
        ∃ p d s, (imagen_a_url env m).1 = (some p, decoderLabel d s)) := by
  refine ⟨fun hnone => by simp [imagen_a_url, hnone], ?_, ?_⟩
  · intro hp hall
    obtain ⟨u, hu⟩ := Option.isSome_iff_exists.mp hp
    have hd := firstDet_eq_none env hall
    have hs := learnedPhase_eq_none env.smallInitOk env.smallDet
      (fun s => hall (.qsmall, s))
    have hm2 := learnedPhase_eq_none env.mediumInitOk env.mediumDet
      (fun s => hall (.qmedium, s))
    simp [imagen_a_url, hu, hd, hs, hm2]
  · unfold imagen_a_url
    cases env.preprocess with
    | none => simp
    | some u =>
      cases hfd : firstDet env with
      | some r =>
        obtain ⟨p, d, s⟩ := r
        exact Or.inr (Or.inr ⟨p, d, s, by simp⟩)
      | none =>
        cases hs : learnedPhase env.smallInitOk env.smallDet with
        | some r =>
          obtain ⟨p, s⟩ := r
          exact Or.inr (Or.inr ⟨p, .qsmall, s, by simp⟩)
        | none =>
          cases hm2 : learnedPhase env.mediumInitOk env.mediumDet with
          | some r =>
            obtain ⟨p, s⟩ := r
            exact Or.inr (Or.inr ⟨p, .qmedium, s, by simp⟩)
          | none => simp

/-- Environment whose bytes cannot be decoded into a raster. -/
def envErrC2 : DecodeEnv :=
  { preprocess := none, cv2Det := fun _ => .miss, cv2Curved := fun _ => .miss,
    pyzbar := fun _ => .miss, smallInitOk := true, smallDet := fun _ => .miss,
    mediumInitOk := true, mediumDet := fun _ => .miss, latencyMs := 0 }

/-- Environment in which every pairing is tried and none matches. -/
def envFailC2 : DecodeEnv :=
  { preprocess := some (), cv2Det := fun _ => .miss, cv2Curved := fun _ => .miss,
    pyzbar := fun _ => .miss, smallInitOk := true, smallDet := fun _ => .miss,
    mediumInitOk := true, mediumDet := fun _ => .miss, latencyMs := 0 }

/-- Witness for C2: an unreadable blob yields the ERROR sentinel and an
all-miss run yields the FAILED_ALL_METHODS sentinel. -/
theorem c2_error_sentinels_witness :
    (imagen_a_url envErrC2 detectionMetricsInit).1 = (none, "ERROR")
    ∧ (imagen_a_url envFailC2 detectionMetricsInit).1 = (none, "FAILED_ALL_METHODS") :=
  ⟨(c2_error_sentinels envErrC2 detectionMetricsInit).1 rfl,
   (c2_error_sentinels envFailC2 detectionMetricsInit).2.1 rfl (by decide)⟩

/-- Sum of all per-decoder success counters plus the failure counter. -/
def successFailSum (m : Metrics) : Nat :=
  m.cv2_success + m.cv2_curved_success + m.pyzbar_success + m.qreader_small_success +
    m.qreader_medium_success + m.qreader_large_success + m.total_failures

lemma imagen_a_url_total_requests (env : DecodeEnv) (m : Metrics) :
    (imagen_a_url env m).2.total_requests = m.total_requests + 1 := by
  unfold imagen_a_url
  cases env.preprocess with
  | none => simp [updateAvg]
  | some u =>
    cases hfd : firstDet env with
    | some r =>
      obtain ⟨p, d, s⟩ := r
      cases d <;> simp [updateAvg, bumpCounter]
    | none =>
      cases hs : learnedPhase env.smallInitOk env.smallDet with
      | some r => simp [updateAvg, bumpCounter]
      | none =>
        cases hm2 : learnedPhase env.mediumInitOk env.mediumDet with
        | some r => simp [updateAvg, bumpCounter]
        | none => simp [updateAvg]

lemma imagen_a_url_sfsum (env : DecodeEnv) (m : Metrics) :
    successFailSum (imagen_a_url env m).2 = successFailSum m + 1 := by
  unfold imagen_a_url
  cases env.preprocess with
  | none => simp [updateAvg, successFailSum]; omega
  | some u =>
    cases hfd : firstDet env with
    | some r =>
      obtain ⟨p, d, s⟩ := r
      cases d <;> (simp [updateAvg, bumpCounter, successFailSum]; omega)
    | none =>
      cases hs : learnedPhase env.smallInitOk env.smallDet with
      | some r => simp [updateAvg, bumpCounter, successFailSum]; omega
      | none =>
        cases hm2 : learnedPhase env.mediumInitOk env.mediumDet with
        | some r => simp [updateAvg, bumpCounter, successFailSum]; omega
        | none => simp [updateAvg, successFailSum]; omega

lemma runCalls_stats (envs : List DecodeEnv) (m : Metrics) :
    (runCalls envs m).total_requests = m.total_requests + envs.length
    ∧ successFailSum (runCalls envs m) = successFailSum m + envs.length := by
  induction envs generalizing m with
  | nil => simp [runCalls]
  | cons e rest ih =>
    have hstep : runCalls (e :: rest) m = runCalls rest (imagen_a_url e m).2 := by
      simp [runCalls]
    rcases ih (imagen_a_url e m).2 with ⟨ha, hb⟩
    have h1 := imagen_a_url_total_requests e m
    have h2 := imagen_a_url_sfsum e m
    rw [hstep]
    constructor
    · rw [ha, h1]
      simp
      omega
    · rw [hb, h2]
      simp
      omega

/-- Each individual counter is either untouched or incremented exactly once by
one call. -/
lemma imagen_a_url_counter_change (env : DecodeEnv) (m : Metrics) :
    ((imagen_a_url env m).2.cv2_success = m.cv2_success ∨
      (imagen_a_url env m).2.cv2_success = m.cv2_success + 1)
    ∧ ((imagen_a_url env m).2.cv2_curved_success = m.cv2_curved_success ∨
      (imagen_a_url env m).2.cv2_curved_success = m.cv2_curved_success + 1)
    ∧ ((imagen_a_url env m).2.pyzbar_success = m.pyzbar_success ∨
      (imagen_a_url env m).2.pyzbar_success = m.pyzbar_success + 1)
    ∧ ((imagen_a_url env m).2.qreader_small_success = m.qreader_small_success ∨
      (imagen_a_url env m).2.qreader_small_success = m.qreader_small_success + 1)
    ∧ ((imagen_a_url env m).2.qreader_medium_success = m.qreader_medium_success ∨
      (imagen_a_url env m).2.qreader_medium_success = m.qreader_medium_success + 1)
    ∧ ((imagen_a_url env m).2.qreader_large_success = m.qreader_large_success ∨
      (imagen_a_url env m).2.qreader_large_success = m.qreader_large_success + 1)
    ∧ ((imagen_a_url env m).2.total_failures = m.total_failures ∨
      (imagen_a_url env m).2.total_failures = m.total_failures + 1) := by
  unfold imagen_a_url
  cases env.preprocess with
  | none => simp [updateAvg]
  | some u =>
    cases hfd : firstDet env with
    | some r =>
      obtain ⟨p, d, s⟩ := r
      cases d <;> simp [updateAvg, bumpCounter]
    | none =>
      cases hs : learnedPhase env.smallInitOk env.smallDet with
      | some r => simp [updateAvg, bumpCounter]
      | none =>
        cases hm2 : learnedPhase env.mediumInitOk env.mediumDet with
        | some r => simp [updateAvg, bumpCounter]
        | none => simp [updateAvg]

/-- Claim C4: after any sequence of N calls since the last reset,
`total_requests = N` and the success counters plus the failure counter sum to
N; moreover every single invocation increments `total_requests` exactly once,
increments the success/failure counters' sum exactly once, and changes each
individual counter by at most one. -/
theorem c4_metrics_invariant (envs : List DecodeEnv) (env : DecodeEnv) (m : Metrics) :
    (runCalls envs reset_detection_metrics).total_requests = envs.length
    ∧ successFailSum (runCalls envs reset_detection_metrics) = envs.length
    ∧ (imagen_a_url env m).2.total_requests = m.total_requests + 1
    ∧ successFailSum (imagen_a_url env m).2 = successFailSum m + 1
    ∧ ((imagen_a_url env m).2.cv2_success = m.cv2_success ∨
      (imagen_a_url env m).2.cv2_success = m.cv2_success + 1)
    ∧ ((imagen_a_url env m).2.cv2_curved_success = m.cv2_curved_success ∨
      (imagen_a_url env m).2.cv2_curved_success = m.cv2_curved_success + 1)
    ∧ ((imagen_a_url env m).2.pyzbar_success = m.pyzbar_success ∨
      (imagen_a_url env m).2.pyzbar_success = m.pyzbar_success + 1)
    ∧ ((imagen_a_url env m).2.qreader_small_success = m.qreader_small_success ∨
      (imagen_a_url env m).2.qreader_small_success = m.qreader_small_success + 1)
    ∧ ((imagen_a_url env m).2.qreader_medium_success = m.qreader_medium_success ∨
      (imagen_a_url env m).2.qreader_medium_success = m.qreader_medium_success + 1)
    ∧ ((imagen_a_url env m).2.qreader_large_success = m.qreader_large_success ∨
      (imagen_a_url env m).2.qreader_large_success = m.qreader_large_success + 1)
    ∧ ((imagen_a_url env m).2.total_failures = m.total_failures ∨
      (imagen_a_url env m).2.total_failures = m.total_failures + 1) := by
  rcases runCalls_stats envs reset_detection_metrics with ⟨ha, hb⟩
  refine ⟨?_, ?_, imagen_a_url_total_requests env m, imagen_a_url_sfsum env m,
    imagen_a_url_counter_change env m⟩
  · rw [ha]; simp [reset_detection_metrics, detectionMetricsInit]
  · rw [hb]; simp [reset_detection_metrics, detectionMetricsInit, successFailSum]

/-- Claim C6: after every completed call, writing n for the post-increment
`total_requests`, the stored running average equals
`avg_old * (n - 1) / n + latency / n`, where `latency` is the elapsed time of
that call; the new average is a function of the previous average and the
counters alone. -/
theorem c6_running_average (env : DecodeEnv) (m : Metrics) :
    (imagen_a_url env m).2.total_requests = m.total_requests + 1
    ∧ (imagen_a_url env m).2.avg_latency_ms =
        m.avg_latency_ms * (((imagen_a_url env m).2.total_requests : ℚ) - 1) /
            ((imagen_a_url env m).2.total_requests : ℚ)
          + env.latencyMs / ((imagen_a_url env m).2.total_requests : ℚ) := by
  refine ⟨imagen_a_url_total_requests env m, ?_⟩
  rw [imagen_a_url_total_requests env m]
  unfold imagen_a_url
  cases env.preprocess with
  | none => simp [updateAvg, add_div]
  | some u =>
    cases hfd : firstDet env with
    | some r =>
      obtain ⟨p, d, s⟩ := r
      cases d <;> simp [updateAvg, bumpCounter, add_div]
    | none =>
      cases hs : learnedPhase env.smallInitOk env.smallDet with
      | some r => simp [updateAvg, bumpCounter, add_div]
      | none =>
        cases hm2 : learnedPhase env.mediumInitOk env.mediumDet with
        | some r => simp [updateAvg, bumpCounter, add_div]
        | none => simp [updateAvg, add_div]

/-- Replacing a caught exception by a plain no-match. -/
def Outcome.purify : Outcome → Outcome
  | .exc => .miss
  | o => o

/-- The environment in which every decoder failure (exception) behaves as a
plain per-attempt no-match and model construction never fails: this is the
semantics the claim ascribes to the cascade. -/
def DecodeEnv.purifyAll (env : DecodeEnv) : DecodeEnv :=
  { env with
    cv2Det := fun s => (env.cv2Det s).purify,
    cv2Curved := fun s => (env.cv2Curved s).purify,
    pyzbar := fun s => (env.pyzbar s).purify,
    smallInitOk := true,
    smallDet := fun s => (env.smallDet s).purify,
    mediumInitOk := true,
    mediumDet := fun s => (env.mediumDet s).purify }

/-- Purifying only the deterministic decoders. -/
def DecodeEnv.purifyDet (env : DecodeEnv) : DecodeEnv :=
  { env with
    cv2Det := fun s => (env.cv2Det s).purify,
    cv2Curved := fun s => (env.cv2Curved s).purify,
    pyzbar := fun s => (env.pyzbar s).purify }

/-- Environment refuting C5 as stated: every deterministic attempt misses, the
small model raises on the equalized variant but would succeed on the raw
variant, and the medium model misses everywhere. -/
def envC5 : DecodeEnv :=
  { preprocess := some (), cv2Det := fun _ => .miss, cv2Curved := fun _ => .miss,
    pyzbar := fun _ => .miss, smallInitOk := true,
    smallDet := fun s => match s with | .equalized => .exc | .raw => .ok "X" | .binary => .miss,
    mediumInitOk := true, mediumDet := fun _ => .miss, latencyMs := 0 }

/-- Counterexample to claim C5 as stated: on `envC5` the small model's
exception on the first variant is NOT treated as a per-attempt non-match — the
`try` block wraps the whole variant loop of METHOD 4, so the remaining
(raw, small) pairing, which would have succeeded, is skipped and the cascade
ends in FAILED_ALL_METHODS, while the claimed exception-as-non-match semantics
would return the small model's raw-variant payload. -/
theorem c5_decoder_failure_counterexample :
    (imagen_a_url envC5 detectionMetricsInit).1 = (none, "FAILED_ALL_METHODS")
    ∧ (imagen_a_url (DecodeEnv.purifyAll envC5) detectionMetricsInit).1 =
        (some "X", "QREADER_S_RAW")
    ∧ (imagen_a_url envC5 detectionMetricsInit).1 ≠
        (imagen_a_url (DecodeEnv.purifyAll envC5) detectionMetricsInit).1 := by decide

lemma detStep_purifyDet (env : DecodeEnv) (s : Strategy) :
    detStep (DecodeEnv.purifyDet env) s = detStep env s := by
  cases h1 : env.cv2Det s <;> cases h2 : env.cv2Curved s <;> cases h3 : env.pyzbar s <;>
    simp [detStep, DecodeEnv.purifyDet, Outcome.purify, h1, h2, h3]

lemma firstDetAux_purifyDet (env : DecodeEnv) (l : List Strategy) :
    firstDetAux (DecodeEnv.purifyDet env) l = firstDetAux env l := by
  induction l with
  | nil => rfl
  | cons s rest ih => simp [firstDetAux, detStep_purifyDet, ih]

/-- Claim C5, amended: a failure inside a DETERMINISTIC decoder on one attempt
is caught per attempt, treated as that attempt's non-match, and the cascade
continues with subsequent (variant, decoder) pairings; for a LEARNED decoder a
construction failure (model initialization failure) makes that whole tier
behave as a non-match and the cascade still completes using the remaining
decoders; and as long as preprocessing succeeded the request never ends in the
ERROR outcome.  (An exception thrown by a learned decoder on one variant skips
that model's remaining variants — see the counterexample.) -/
theorem c5_decoder_failure (env : DecodeEnv) (m : Metrics) :
    imagen_a_url (DecodeEnv.purifyDet env) m = imagen_a_url env m
    ∧ (env.smallInitOk = false →
        imagen_a_url env m =
          imagen_a_url { env with smallInitOk := true, smallDet := fun _ => Outcome.miss } m)
    ∧ (env.mediumInitOk = false →
        imagen_a_url env m =
          imagen_a_url { env with mediumInitOk := true, mediumDet := fun _ => Outcome.miss } m)
    ∧ (env.preprocess.isSome = true → (imagen_a_url env m).1.2 ≠ "ERROR") := by
  refine ⟨?_, ?_, ?_, ?_⟩
  · unfold imagen_a_url
    rw [show firstDet (DecodeEnv.purifyDet env) = firstDet env from firstDetAux_purifyDet env strategies]
    rfl
  · intro h
    unfold imagen_a_url
    rw [show firstDet { env with smallInitOk := true, smallDet := fun _ => Outcome.miss } =
          firstDet env from rfl]
    rw [h]
    rfl
  · intro h
    unfold imagen_a_url
    rw [show firstDet { env with mediumInitOk := true, mediumDet := fun _ => Outcome.miss } =
          firstDet env from rfl]
    rw [h]
    rfl
  · intro hp
    obtain ⟨u, hu⟩ := Option.isSome_iff_exists.mp hp
    unfold imagen_a_url
    rw [hu]
    cases hfd : firstDet env with
    | some r =>
      obtain ⟨p, d, s⟩ := r
      cases d <;> cases s <;> simp [decoderLabel, Strategy.upperName]
    | none =>
      cases hs : learnedPhase env.smallInitOk env.smallDet with
      | some r =>
        obtain ⟨p, s⟩ := r
        cases s <;> simp [decoderLabel, Strategy.upperName]
      | none =>
        cases hm2 : learnedPhase env.mediumInitOk env.mediumDet with
        | some r =>
          obtain ⟨p, s⟩ := r
          cases s <;> simp [decoderLabel, Strategy.upperName]
        | none => simp

/-- Environment whose small-model construction fails while the medium model
succeeds everywhere. -/
def envC5w : DecodeEnv :=
  { preprocess := some (), cv2Det := fun _ => .miss, cv2Curved := fun _ => .miss,
    pyzbar := fun _ => .miss, smallInitOk := false, smallDet := fun _ => .ok "S",
    mediumInitOk := true, mediumDet := fun _ => .ok "M", latencyMs := 0 }

/-- Witness for the amended C5: with small-model construction failing, the
cascade still completes via the medium model and does not produce ERROR. -/
theorem c5_decoder_failure_witness :
    (imagen_a_url envC5w detectionMetricsInit).1 = (some "M", "QREADER_M_EQUALIZED")
    ∧ (imagen_a_url envC5w detectionMetricsInit).1.2 ≠ "ERROR" := by
  have h := c5_decoder_failure envC5w detectionMetricsInit
  exact ⟨by rw [h.2.1 rfl]; decide, h.2.2.2 rfl⟩

/-- Result dictionary of `detect_with_confidence` (qr_fallback_small_medium.py,
lines 77-106). -/
structure DetectResult where
  success : Bool
  data : Option String
  confidence : ℚ
  latency_ms : ℚ
  model : String
deriving DecidableEq, Repr

/-- One element of the list returned by `QReader.detect_and_decode`: either a
`(data, bbox, confidence)` tuple or a bare string (the bbox plays no role in
`detect_with_confidence` and is elided). -/
inductive ReaderItem where
  | tup (data : String) (conf : ℚ)
  | plain (data : String)
deriving DecidableEq, Repr

/-- `detect_with_confidence(reader, img, model_name)`: if the reader returned a
non-empty list, take the first element; a tuple carries its own confidence,
a bare string is assigned confidence 1.0; an empty result is a failure with
confidence 0.0. -/
def detect_with_confidence (result : List ReaderItem) (latency_ms : ℚ) (model : String) :
    DetectResult :=
  match result with
  | [] => { success := false, data := none, confidence := 0, latency_ms := latency_ms,
            model := model }
  | item :: _ =>
    match item with
    | .tup d c => { success := true, data := some d, confidence := c,
                    latency_ms := latency_ms, model := model }
    | .plain d => { success := true, data := some d, confidence := 1,
                    latency_ms := latency_ms, model := model }

/-- The externally visible decision of one `/detect` request. -/
structure HybridResponse where
  success : Bool
  data : Option String
  confidence : ℚ
  model_used : String
  fallback_used : Bool
deriving DecidableEq, Repr

/-- The decision core of `QRHybridHandler.do_POST` (lines 183-274): accept the
small result directly iff `small_result['success'] and
small_result['confidence'] > 0.65`; otherwise fall back to the medium model and
use its result; if the medium model also fails, report failure with
`model_used = "none"`. -/
def do_POST_detect (small_result medium_result : DetectResult) : HybridResponse :=
  if small_result.success = true ∧ small_result.confidence > 65/100 then
    { success := true, data := small_result.data, confidence := small_result.confidence,
      model_used := "small", fallback_used := false }
  else if medium_result.success = true then
    { success := true, data := medium_result.data, confidence := medium_result.confidence,
      model_used := "medium", fallback_used := true }
  else
    { success := false, data := none, confidence := 0, model_used := "none",
      fallback_used := true }

/-- Counterexample to claim C3 as stated: the claimed acceptance condition
`success and confidence >= minConfidence` accepts a small detection with
confidence exactly 0.65, but the code's gate is the strict
`confidence > 0.65`, so at confidence 0.65 the small payload is NOT returned
directly and the medium model's result is used instead. -/
theorem c3_confidence_gate_counterexample :
    (detect_with_confidence [ReaderItem.tup "QR65" (65/100)] 10 "small").success = true
    ∧ (detect_with_confidence [ReaderItem.tup "QR65" (65/100)] 10 "small").confidence ≥ 65/100
    ∧ (do_POST_detect (detect_with_confidence [ReaderItem.tup "QR65" (65/100)] 10 "small")
        (detect_with_confidence [ReaderItem.tup "QRM" (9/10)] 20 "medium")).model_used = "medium"
    ∧ (do_POST_detect (detect_with_confidence [ReaderItem.tup "QR65" (65/100)] 10 "small")
        (detect_with_confidence [ReaderItem.tup "QRM" (9/10)] 20 "medium")).fallback_used
        = true := by
  have hcond : ¬((detect_with_confidence [ReaderItem.tup "QR65" (65/100)] 10 "small").success
      = true ∧
      (detect_with_confidence [ReaderItem.tup "QR65" (65/100)] 10 "small").confidence
        > 65/100) := by
    simp [detect_with_confidence]
  refine ⟨rfl, by simp [detect_with_confidence], ?_, ?_⟩ <;>
    simp [do_POST_detect, hcond, detect_with_confidence]

/-- Claim C3, amended: the small payload is returned directly iff the small
detection succeeded with confidence STRICTLY greater than 0.65; otherwise the
medium model is invoked and its result is used (its payload on success, the
`model_used = "none"` failure response otherwise).  In particular a successful
small detection with confidence 0.50 triggers the medium fallback. -/
theorem c3_confidence_gate (s mr : DetectResult) :
    (s.success = true ∧ s.confidence > 65/100 →
        do_POST_detect s mr =
          { success := true, data := s.data, confidence := s.confidence,
            model_used := "small", fallback_used := false })
    ∧ (¬(s.success = true ∧ s.confidence > 65/100) → mr.success = true →
        do_POST_detect s mr =
          { success := true, data := mr.data, confidence := mr.confidence,
            model_used := "medium", fallback_used := true })
    ∧ (¬(s.success = true ∧ s.confidence > 65/100) → mr.success = false →
        do_POST_detect s mr =
          { success := false, data := none, confidence := 0,
            model_used := "none", fallback_used := true }) := by
  refine ⟨fun h => ?_, fun h hm2 => ?_, fun h hm2 => ?_⟩
  · simp [do_POST_detect, h]
  · simp [do_POST_detect, h, hm2]
  · simp [do_POST_detect, h, hm2]

/-- Witness for the amended C3: a successful small detection with confidence
0.50 does not end the cascade; the medium model's payload is returned. -/
theorem c3_confidence_gate_witness :
    (do_POST_detect (detect_with_confidence [ReaderItem.tup "QRLOW" (1/2)] 10 "small")
        (detect_with_confidence [ReaderItem.tup "QRM" (9/10)] 20 "medium")).model_used = "medium"
    ∧ (do_POST_detect (detect_with_confidence [ReaderItem.tup "QRLOW" (1/2)] 10 "small")
        (detect_with_confidence [ReaderItem.tup "QRM" (9/10)] 20 "medium")).data
        = some "QRM" := by
  have h := (c3_confidence_gate
      (detect_with_confidence [ReaderItem.tup "QRLOW" (1/2)] 10 "small")
      (detect_with_confidence [ReaderItem.tup "QRM" (9/10)] 20 "medium")).2.1
      (by simp [detect_with_confidence]; norm_num) rfl
  exact ⟨by rw [h], by rw [h]; rfl⟩

/-- The module-level singleton state of `app_fun_qrdetection_FIXED.py`:
`_qreader_small`, `_qreader_medium`, `_qreader_large` (lines 22-24), each
`None` until first constructed.  A constructed `QReader` instance is identified
by the id it was minted with (`nextId`); the three `*_constructions` fields
instrument how many times a `QReader(...)` constructor ran for each size class
(the construction counter the spec asks tests to observe). -/
structure QReaderPool where
  qreader_small : Option Nat
  qreader_medium : Option Nat
  qreader_large : Option Nat
  small_constructions : Nat
  medium_constructions : Nat
  large_constructions : Nat
  nextId : Nat
deriving DecidableEq, Repr

/-- The pool at process start: nothing constructed. -/
def coldPool : QReaderPool :=
  { qreader_small := none, qreader_medium := none, qreader_large := none,
    small_constructions := 0, medium_constructions := 0, large_constructions := 0,
    nextId := 0 }

/-- `get_qreader_small()` (lines 88-95): if `_qreader_small is None`, construct
a `QReader` and store it; return the stored instance. -/
def get_qreader_small (p : QReaderPool) : Nat × QReaderPool :=
  match p.qreader_small with
  | some q => (q, p)
  | none =>
    (p.nextId,
      { p with qreader_small := some p.nextId,
               small_constructions := p.small_constructions + 1,
               nextId := p.nextId + 1 })

/-- `get_qreader_medium()` (lines 97-104). -/
def get_qreader_medium (p : QReaderPool) : Nat × QReaderPool :=
  match p.qreader_medium with
  | some q => (q, p)
  | none =>
    (p.nextId,
      { p with qreader_medium := some p.nextId,
               medium_constructions := p.medium_constructions + 1,
               nextId := p.nextId + 1 })

/-- `get_qreader_large()` (lines 106-113). -/
def get_qreader_large (p : QReaderPool) : Nat × QReaderPool :=
  match p.qreader_large with
  | some q => (q, p)
  | none =>
    (p.nextId,
      { p with qreader_large := some p.nextId,
               large_constructions := p.large_constructions + 1,
               nextId := p.nextId + 1 })

/-- `n` successive (sequential) calls to `get_qreader_small`. -/
def callsSmall : Nat → QReaderPool → QReaderPool
  | 0, p => p
  | n + 1, p => callsSmall n (get_qreader_small p).2

lemma callsSmall_stable (n : Nat) (p : QReaderPool) (q : Nat)
    (h : p.qreader_small = some q) : callsSmall n p = p := by
  induction n with
  | zero => rfl
  | succ k ih => simp [callsSmall, get_qreader_small, h, ih]

/-- Claim C7: once a size class's handle is non-None, every call to its getter
returns that identical instance together with an unchanged pool (no further
construction); and any positive number of sequential first-time calls to
`get_qreader_small` starting from the cold pool constructs exactly once and
leaves the constructed instance installed. -/
theorem c7_model_pool_singleton (p : QReaderPool) (q qm ql n : Nat)
    (hs : p.qreader_small = some q) (hm : p.qreader_medium = some qm)
    (hl : p.qreader_large = some ql) :
    get_qreader_small p = (q, p)
    ∧ get_qreader_medium p = (qm, p)
    ∧ get_qreader_large p = (ql, p)
    ∧ (callsSmall (n + 1) coldPool).qreader_small = some 0
    ∧ (callsSmall (n + 1) coldPool).small_constructions = 1 := by
  have hrest := callsSmall_stable n (get_qreader_small coldPool).2 0 rfl
  have hsteps : callsSmall (n + 1) coldPool = (get_qreader_small coldPool).2 := hrest
  exact ⟨by simp [get_qreader_small, hs], by simp [get_qreader_medium, hm],
    by simp [get_qreader_large, hl], by rw [hsteps]; rfl, by rw [hsteps]; rfl⟩

/-- A pool with all three handles installed. -/
def warmPool : QReaderPool :=
  { qreader_small := some 0, qreader_medium := some 1, qreader_large := some 2,
    small_constructions := 1, medium_constructions := 1, large_constructions := 1,
    nextId := 3 }

/-- Witness for C7: on a fully warm pool every getter returns the installed
instance unchanged, and five cold-start calls to the small getter construct
exactly once. -/
theorem c7_model_pool_singleton_witness :
    get_qreader_small warmPool = (0, warmPool)
    ∧ (callsSmall 5 coldPool).small_constructions = 1 := by
  have h := c7_model_pool_singleton warmPool 0 1 2 4 rfl rfl rfl
  exact ⟨h.1, h.2.2.2.2⟩

/-- Position of one thread inside the body of `get_qreader_small` (the same
shape as `get_small_reader` in qr_fallback_small_medium.py).  The body has
three atomic regions between which the interpreter can switch threads:
`check` — evaluate `_qreader_small is None`; `construct` — run
`QReader(model_size=..., ...)`, which performs file I/O and releases the GIL;
`assign i` — store the freshly built instance `i` into the module global;
`finished q` — the call returned instance `q`. -/
inductive ThreadPhase where
  | check
  | construct
  | assign (instanceId : Nat)
  | finished (handle : Nat)
deriving DecidableEq, Repr

/-- Two threads concurrently inside the small-model getter: the shared module
global `handle`, the number of `QReader` constructions that ran, a counter to
mint instance identities, and each thread's position. -/
structure RaceState where
  handle : Option Nat
  constructions : Nat
  nextId : Nat
  t1 : ThreadPhase
  t2 : ThreadPhase
deriving DecidableEq, Repr

/-- One atomic region of the getter executed by a thread: the new shared state
and the thread's next phase. -/
def phaseStep (handle : Option Nat) (constructions nextId : Nat) :
    ThreadPhase → Option Nat × Nat × Nat × ThreadPhase
  | .check =>
    match handle with
    | some q => (handle, constructions, nextId, .finished q)
    | none => (handle, constructions, nextId, .construct)
  | .construct => (handle, constructions + 1, nextId + 1, .assign nextId)
  | .assign i => (some i, constructions, nextId, .finished i)
  | .finished q => (handle, constructions, nextId, .finished q)

/-- Interleaving step: `true` schedules thread 1, `false` thread 2. -/
def raceStep (s : RaceState) (which : Bool) : RaceState :=
  if which then
    let r := phaseStep s.handle s.constructions s.nextId s.t1
    { handle := r.1, constructions := r.2.1, nextId := r.2.2.1, t1 := r.2.2.2, t2 := s.t2 }
  else
    let r := phaseStep s.handle s.constructions s.nextId s.t2
    { handle := r.1, constructions := r.2.1, nextId := r.2.2.1, t1 := s.t1, t2 := r.2.2.2 }

/-- Run a schedule of interleaved thread steps. -/
def runSchedule (sched : List Bool) (s : RaceState) : RaceState :=
  sched.foldl raceStep s

/-- Both threads about to make their first call against a cold pool. -/
def coldRace : RaceState :=
  { handle := none, constructions := 0, nextId := 0, t1 := .check, t2 := .check }

/-- Claim C8 names a property the code does not have: `get_qreader_small`
(and `get_small_reader`) contain no mutual-exclusion mechanism, only an
unguarded check-then-construct-then-assign.  Under the interleaving in which
both threads pass the `is None` check before either assigns, TWO constructions
run; the second assignment wins, leaving thread 1 holding an instance that is
no longer the pool's stored instance.  (Sequential execution does construct
exactly once — see C7.) -/
theorem c8_double_construction :
    (runSchedule [true, false, true, false, true, false] coldRace).constructions = 2
    ∧ (runSchedule [true, false, true, false, true, false] coldRace).t1 =
        ThreadPhase.finished 0
    ∧ (runSchedule [true, false, true, false, true, false] coldRace).t2 =
        ThreadPhase.finished 1
    ∧ (runSchedule [true, false, true, false, true, false] coldRace).handle = some 1 := by
  decide

/-- `models_loaded` of the `qr_health_check` endpoint
(api_main_CORRECTIONS.py, lines 116-120): each flag is computed from the
metrics dictionary returned by `get_detection_metrics`, not from the model
pool: small iff `qreader_small_success > 0 or total_requests > 0`, medium iff
`qreader_medium_success > 0`, large iff `qreader_large_success > 0`. -/
def qr_health_models_loaded (m : Metrics) : Bool × Bool × Bool :=
  (decide (0 < m.qreader_small_success) || decide (0 < m.total_requests),
   decide (0 < m.qreader_medium_success),
   decide (0 < m.qreader_large_success))

/-- Claim C9: the health endpoint's loaded flags are characterized purely by
the metrics counters — the small model is reported loaded iff its success
counter is positive or any request has occurred, and the medium / large models
are reported loaded iff their success counters are positive.  The function
takes no model-pool argument at all, so the report is independent of whether
any handle exists. -/
theorem c9_health_flags (m : Metrics) :
    ((qr_health_models_loaded m).1 = true ↔
      0 < m.qreader_small_success ∨ 0 < m.total_requests)
    ∧ ((qr_health_models_loaded m).2.1 = true ↔ 0 < m.qreader_medium_success)
    ∧ ((qr_health_models_loaded m).2.2 = true ↔ 0 < m.qreader_large_success) := by
  simp [qr_health_models_loaded]

/-- The `methods_breakdown` sub-dictionary of `get_detection_metrics`. -/
structure MethodsBreakdown where
  cv2_pct : ℚ
  cv2_curved_pct : ℚ
  pyzbar_pct : ℚ
  qreader_small_pct : ℚ
  qreader_medium_pct : ℚ
  qreader_large_pct : ℚ
  failure_pct : ℚ
deriving DecidableEq, Repr

/-- The dictionary returned by `get_detection_metrics`: the raw counters, plus
the derived `success_rate_pct` and `methods_breakdown` keys, which are absent
(`none`) exactly when the early `total == 0` return fires. -/
structure MetricsReport where
  counters : Metrics
  success_rate_pct : Option ℚ
  methods_breakdown : Option MethodsBreakdown
deriving DecidableEq, Repr

/-- Python's `round(x, 2)`, over `ℚ`.  (Python rounds a float half to even;
for the derived percentage fields the tie-breaking convention is irrelevant to
the claims, so half-up over exact rationals is used.) -/
def roundTo2 (q : ℚ) : ℚ := ((⌊q * 100 + 1/2⌋ : ℤ) : ℚ) / 100

/-- `get_detection_metrics()` (lines 318-348): with `total == 0` return the
raw counter dictionary unchanged; otherwise additionally derive the overall
success rate and the per-method percentage breakdown. -/
def get_detection_metrics (m : Metrics) : MetricsReport :=
  if m.total_requests = 0 then
    { counters := m, success_rate_pct := none, methods_breakdown := none }
  else
    { counters := m,
      success_rate_pct := some (roundTo2
        (((m.cv2_success + m.cv2_curved_success + m.pyzbar_success +
            m.qreader_small_success + m.qreader_medium_success +
            m.qreader_large_success : ℕ) : ℚ) / (m.total_requests : ℚ) * 100)),
      methods_breakdown := some
        { cv2_pct := roundTo2 ((m.cv2_success : ℚ) / (m.total_requests : ℚ) * 100),
          cv2_curved_pct :=
            roundTo2 ((m.cv2_curved_success : ℚ) / (m.total_requests : ℚ) * 100),
          pyzbar_pct := roundTo2 ((m.pyzbar_success : ℚ) / (m.total_requests : ℚ) * 100),
          qreader_small_pct :=
            roundTo2 ((m.qreader_small_success : ℚ) / (m.total_requests : ℚ) * 100),
          qreader_medium_pct :=
            roundTo2 ((m.qreader_medium_success : ℚ) / (m.total_requests : ℚ) * 100),
          qreader_large_pct :=
            roundTo2 ((m.qreader_large_success : ℚ) / (m.total_requests : ℚ) * 100),
          failure_pct := roundTo2 ((m.total_failures : ℚ) / (m.total_requests : ℚ) * 100) } }

/-- Claim C10: whenever `total_requests = 0` — in particular immediately after
`reset_detection_metrics` — `get_detection_metrics` returns the raw counters
with the derived `success_rate_pct` and `methods_breakdown` keys absent, so no
percentage (and no division by `total_requests`) is ever computed on an empty
snapshot; when `total_requests > 0` both derived fields are present. -/
theorem c10_metrics_snapshot_guard (m : Metrics) :
    (m.total_requests = 0 →
      get_detection_metrics m =
        { counters := m, success_rate_pct := none, methods_breakdown := none })
    ∧ (0 < m.total_requests →
        (get_detection_metrics m).counters = m
        ∧ (get_detection_metrics m).success_rate_pct.isSome = true
        ∧ (get_detection_metrics m).methods_breakdown.isSome = true)
    ∧ get_detection_metrics reset_detection_metrics =
        { counters := reset_detection_metrics, success_rate_pct := none,
          methods_breakdown := none } := by
  refine ⟨fun h => by simp [get_detection_metrics, h], fun h => ?_,
    by simp [get_detection_metrics, reset_detection_metrics, detectionMetricsInit]⟩
  have h0 : ¬m.total_requests = 0 := by omega
  simp [get_detection_metrics, h0]

/-- A metrics state after two requests: one cv2 success, one failure. -/
def mBusy : Metrics :=
  { total_requests := 2, cv2_success := 1, cv2_curved_success := 0,
    pyzbar_success := 0, qreader_small_success := 0, qreader_medium_success := 0,
    qreader_large_success := 0, total_failures := 1, avg_latency_ms := 5 }

/-- Witness for C10: the reset state yields the raw dictionary with both
derived fields absent, and a state with two requests carries both derived
fields. -/
theorem c10_metrics_snapshot_guard_witness :
    get_detection_metrics reset_detection_metrics =
      { counters := reset_detection_metrics, success_rate_pct := none,
        methods_breakdown := none }
    ∧ (get_detection_metrics mBusy).success_rate_pct.isSome = true
    ∧ (get_detection_metrics mBusy).methods_breakdown.isSome = true := by
  have h1 := (c10_metrics_snapshot_guard reset_detection_metrics).1 rfl
  have h2 := (c10_metrics_snapshot_guard mBusy).2.1 (by decide)
  exact ⟨h1, h2.2.1, h2.2.2⟩
